import Mathlib

/-!
Shallow embedding of the dav-js identity layer: the configuration object
(`Config.ts`) and the topic-resolution / publish / stream-hydration
orchestration exercised by `Identity.test.ts`.  Asynchronous collaborators
(the Kafka log client and the axios HTTP registrar) are modelled as records
of functions, and each operation additionally returns the ordered trace of
collaborator calls it performed, so that claims about which calls happen
and in which order become statements about that trace.
-/

/-- Modelled from the spec: the blockchain network tag from `common-enums`
(that file is absent from the sources); only the `test` default is used. -/
inductive BlockchainType
  | test
  | main
deriving DecidableEq, Repr

/-- The full configuration record, with exactly the fields of
`defaultValues` in `Config.ts`. -/
structure IConfig where
  ethNodeUrl : String
  apiSeedUrls : List String
  kafkaSeedUrls : List String
  identityTtl : Nat
  needTypeTtl : Nat
  needTtl : Nat
  missionConsumerTtl : Nat
  missionProviderTtl : Nat
  kafkaPollingInterval : Nat
  blockchainType : BlockchainType
deriving DecidableEq, Repr

/-- `defaultValues` from `Config.ts`. -/
def defaultValues : IConfig where
  ethNodeUrl := "https://ropsten.infura.io/wUiZtmeZ1KwjFrcC8zRO"
  apiSeedUrls := [""]
  kafkaSeedUrls := [""]
  identityTtl := 10000
  needTypeTtl := 10000
  needTtl := 10000
  missionConsumerTtl := 10000
  missionProviderTtl := 10000
  kafkaPollingInterval := 1000
  blockchainType := BlockchainType.test

/-- A `Partial<IConfig>` props object: every field optional (absent = `none`). -/
structure ConfigProps where
  ethNodeUrl : Option String := none
  apiSeedUrls : Option (List String) := none
  kafkaSeedUrls : Option (List String) := none
  identityTtl : Option Nat := none
  needTypeTtl : Option Nat := none
  needTtl : Option Nat := none
  missionConsumerTtl : Option Nat := none
  missionProviderTtl : Option Nat := none
  kafkaPollingInterval : Option Nat := none
  blockchainType : Option BlockchainType := none
deriving DecidableEq, Repr

/-- The `Config` constructor: `Object.assign(this, defaultValues, props)` —
every own property of `props` overwrites the corresponding default, every
absent property keeps the default. -/
def Config.make (props : ConfigProps) : IConfig where
  ethNodeUrl := match props.ethNodeUrl with | some v => v | none => defaultValues.ethNodeUrl
  apiSeedUrls := match props.apiSeedUrls with | some v => v | none => defaultValues.apiSeedUrls
  kafkaSeedUrls := match props.kafkaSeedUrls with | some v => v | none => defaultValues.kafkaSeedUrls
  identityTtl := match props.identityTtl with | some v => v | none => defaultValues.identityTtl
  needTypeTtl := match props.needTypeTtl with | some v => v | none => defaultValues.needTypeTtl
  needTtl := match props.needTtl with | some v => v | none => defaultValues.needTtl
  missionConsumerTtl := match props.missionConsumerTtl with | some v => v | none => defaultValues.missionConsumerTtl
  missionProviderTtl := match props.missionProviderTtl with | some v => v | none => defaultValues.missionProviderTtl
  kafkaPollingInterval := match props.kafkaPollingInterval with | some v => v | none => defaultValues.kafkaPollingInterval
  blockchainType := match props.blockchainType with | some v => v | none => defaultValues.blockchainType

/-- A raw type-specific payload (NeedParams / BidParams / MissionParams /
MessageParams / NeedFilterParams) prior to topic binding; `id` is the field
read by the local `need` constructor. -/
structure ParamsObject where
  id : String
  payload : String
deriving DecidableEq, Repr

/-- The four domain record kinds (Need, Bid, Mission, Message). -/
inductive RecordType
  | need
  | bid
  | mission
  | message
deriving DecidableEq, Repr

/-- A typed domain record: `new Need(topicId, params, config)` and its
siblings are all the triple (topicId, params, config) tagged with a kind. -/
structure DomainRecord where
  rtype : RecordType
  topicId : String
  params : ParamsObject
  cfg : IConfig
deriving DecidableEq, Repr

/-- Direct construction of a domain record of kind `rt` from a topic id,
params and config — the `hydrateFn` of the spec. -/
def mkRecord (rt : RecordType) (topicId : String) (params : ParamsObject)
    (cfg : IConfig) : DomainRecord :=
  ⟨rt, topicId, params, cfg⟩

/-- Errors are their stringified causes (template-string interpolation of
the rejected value in the TypeScript source). -/
abbrev Err := String

/-- Outcome of an upstream params subscription: the ParamsObject items in
delivery order, then an optional terminal error (an error ends the stream,
so no item can follow it). A stream that fails at open time is `⟨[], some e⟩`. -/
structure Upstream where
  items : List ParamsObject
  err : Option Err
deriving DecidableEq, Repr

/-- Outcome of a hydrated domain-record stream: item events in emission
order, then an optional terminal error event. -/
structure Hydrated where
  items : List DomainRecord
  err : Option Err
deriving DecidableEq, Repr

/-- Modelled from the spec: the StreamHydrator (`Identity.ts` is absent from
the sources) maps `hydrateFn(topic, paramsItem, config)` over each arriving
item in order and forwards the upstream error verbatim. -/
def hydrateStream (rt : RecordType) (topicId : String) (cfg : IConfig)
    (up : Upstream) : Hydrated :=
  ⟨up.items.map (fun p => mkRecord rt topicId p cfg), up.err⟩

/-- The Kafka log-client interface consumed by the orchestrator. -/
structure LogClient where
  generateTopicId : String
  createTopic : String → IConfig → Except Err Unit
  paramsStream : String → IConfig → Upstream

/-- The axios HTTP registrar interface: `post(url, body)` resolves with a
response body or rejects with a transport error. -/
structure HttpClient where
  post : String → ParamsObject → Except Err String

/-- One collaborator call, recorded in an operation's trace. -/
inductive Event
  | genTopicId
  | createTopic (topicId : String) (cfg : IConfig)
  | post (url : String) (body : ParamsObject)
  | openStream (topicId : String) (cfg : IConfig)
deriving DecidableEq, Repr

/-- Whether an event is an id-generation call. -/
def Event.isGen : Event → Bool
  | .genTopicId => true
  | _ => false

/-- Whether an event is a topic-creation call. -/
def Event.isCreate : Event → Bool
  | .createTopic _ _ => true
  | _ => false

/-- Whether an event is an HTTP registration post. -/
def Event.isPost : Event → Bool
  | .post _ _ => true
  | _ => false

/-- Whether an event is a subscription open (`paramsStream` call). -/
def Event.isOpen : Event → Bool
  | .openStream _ _ => true
  | _ => false

/-- Provisioning events: id generation and topic creation. -/
def Event.isProvision (e : Event) : Bool :=
  e.isGen || e.isCreate

/-- Use events: HTTP registration posts and subscription opens. -/
def Event.isUse (e : Event) : Bool :=
  e.isPost || e.isOpen

/-- Every provisioning event of the trace precedes every use event: from
the first use event onward, no provisioning event occurs. -/
def provisionBeforeUse (tr : List Event) : Bool :=
  (tr.dropWhile (fun e => !e.isUse)).all (fun e => !e.isProvision)

/-- The first API seed url, `config.apiSeedUrls[0]`. -/
def seedUrl (cfg : IConfig) : String :=
  cfg.apiSeedUrls.headD ""

/-- Modelled from the spec: TopicResolver (`Identity.ts` is absent from the
sources).  An explicit topic id is returned unchanged with no log
interaction; otherwise an id is minted, the topic is created with that id
and the config, and a creation failure is rewritten to
`"Topic registration failed: <cause>"`. -/
def resolveTopic (log : LogClient) (cfg : IConfig)
    (explicitTopicId : Option String) : List Event × Except Err String :=
  match explicitTopicId with
  | some t => ([], Except.ok t)
  | none =>
    let tid := log.generateTopicId
    match log.createTopic tid cfg with
    | Except.ok _ =>
      ([Event.genTopicId, Event.createTopic tid cfg], Except.ok tid)
    | Except.error e =>
      ([Event.genTopicId, Event.createTopic tid cfg],
       Except.error ("Topic registration failed: " ++ e))

/-- Endpoint of the one-shot need publication. -/
def publishNeedUrl (cfg : IConfig) (topicId : String) : String :=
  seedUrl cfg ++ "/publishNeed/:" ++ topicId

/-- Endpoint of the streaming need-type registration. -/
def needsForTypeUrl (cfg : IConfig) (topicId : String) : String :=
  seedUrl cfg ++ "/needsForType/:" ++ topicId

/-- Modelled from the spec: `Identity.publishNeed` (`Identity.ts` is absent
from the sources).  Resolves a generated topic, posts the params to
`<seedUrl>/publishNeed/:<topicId>`, and resolves to a Need record built
from (topic, params, config); a registrar failure propagates unchanged,
and a provisioning failure short-circuits before the post. -/
def Identity.publishNeed (log : LogClient) (http : HttpClient) (cfg : IConfig)
    (params : ParamsObject) : List Event × Except Err DomainRecord :=
  match resolveTopic log cfg none with
  | (tr, Except.error e) => (tr, Except.error e)
  | (tr, Except.ok topicId) =>
    let url := publishNeedUrl cfg topicId
    match http.post url params with
    | Except.ok _ =>
      (tr ++ [Event.post url params],
       Except.ok (mkRecord RecordType.need topicId params cfg))
    | Except.error e => (tr ++ [Event.post url params], Except.error e)

/-- Modelled from the spec: `Identity.needsForType` (`Identity.ts` is absent
from the sources).  With an explicit topic id the subscription is opened
directly on it (no provisioning, no registration post); otherwise a topic
is provisioned, the filter is posted to `<seedUrl>/needsForType/:<topicId>`
(a post failure is rewritten to `"Needs registration failed: <cause>"`),
and the subscription is opened; items are hydrated into Need records. -/
def Identity.needsForType (log : LogClient) (http : HttpClient) (cfg : IConfig)
    (filterParams : ParamsObject) (explicitTopicId : Option String) :
    List Event × Except Err Hydrated :=
  match explicitTopicId with
  | some t =>
    ([Event.openStream t cfg],
     Except.ok (hydrateStream RecordType.need t cfg (log.paramsStream t cfg)))
  | none =>
    match resolveTopic log cfg none with
    | (tr, Except.error e) => (tr, Except.error e)
    | (tr, Except.ok topicId) =>
      let url := needsForTypeUrl cfg topicId
      match http.post url filterParams with
      | Except.error e =>
        (tr ++ [Event.post url filterParams],
         Except.error ("Needs registration failed: " ++ e))
      | Except.ok _ =>
        (tr ++ [Event.post url filterParams, Event.openStream topicId cfg],
         Except.ok (hydrateStream RecordType.need topicId cfg
           (log.paramsStream topicId cfg)))

/-- Modelled from the spec: `Identity.missions` (`Identity.ts` is absent
from the sources).  Resolves the topic (explicit id bypasses provisioning),
opens the subscription on it and hydrates items into Mission records; no
registration post is involved. -/
def Identity.missions (log : LogClient) (cfg : IConfig)
    (explicitTopicId : Option String) : List Event × Except Err Hydrated :=
  match resolveTopic log cfg explicitTopicId with
  | (tr, Except.error e) => (tr, Except.error e)
  | (tr, Except.ok topicId) =>
    (tr ++ [Event.openStream topicId cfg],
     Except.ok (hydrateStream RecordType.mission topicId cfg
       (log.paramsStream topicId cfg)))

/-- Modelled from the spec: `Identity.messages` (`Identity.ts` is absent
from the sources).  Same shape as `missions`, hydrating Message records. -/
def Identity.messages (log : LogClient) (cfg : IConfig)
    (explicitTopicId : Option String) : List Event × Except Err Hydrated :=
  match resolveTopic log cfg explicitTopicId with
  | (tr, Except.error e) => (tr, Except.error e)
  | (tr, Except.ok topicId) =>
    (tr ++ [Event.openStream topicId cfg],
     Except.ok (hydrateStream RecordType.message topicId cfg
       (log.paramsStream topicId cfg)))

/-- Modelled from the spec: the local `need` constructor (`Identity.ts` is
absent from the sources) — pure and synchronous, it builds a Need from
`params.id`, the params and the config, performing no collaborator call
(the trace component is empty). -/
def Identity.need (cfg : IConfig) (params : ParamsObject) :
    List Event × DomainRecord :=
  ([], mkRecord RecordType.need params.id params cfg)

/-- Modelled from the spec: the local `bid` constructor (`Identity.ts` is
absent from the sources) — pure and synchronous, no collaborator call. -/
def Identity.bid (cfg : IConfig) (id : String) (params : ParamsObject) :
    List Event × DomainRecord :=
  ([], mkRecord RecordType.bid id params cfg)

/-- Modelled from the spec: the local `mission` constructor (`Identity.ts`
is absent from the sources) — pure and synchronous, no collaborator call. -/
def Identity.mission (cfg : IConfig) (id : String) (params : ParamsObject) :
    List Event × DomainRecord :=
  ([], mkRecord RecordType.mission id params cfg)

/-- The domain records a streaming operation produced: the item events of
the hydrated stream, none when the operation rejected. -/
def recordsOf (res : Except Err Hydrated) : List DomainRecord :=
  match res with
  | Except.ok s => s.items
  | Except.error _ => []

/-- Concrete params objects used to instantiate the theorems. -/
def pA : ParamsObject := ⟨"MISSION_ID_1", "a"⟩

/-- A second concrete params object. -/
def pB : ParamsObject := ⟨"MISSION_ID_2", "b"⟩

/-- A third concrete params object. -/
def pC : ParamsObject := ⟨"MISSION_ID_3", "c"⟩

/-- A log client whose calls all succeed, mirroring the happy-path Kafka
mock of the tests: id mint yields `"TOPIC_ID"`, topic creation resolves,
and the params stream delivers three items then completes. -/
def okLog : LogClient where
  generateTopicId := "TOPIC_ID"
  createTopic := fun _ _ => Except.ok ()
  paramsStream := fun _ _ => ⟨[pA, pB, pC], none⟩

/-- A log client whose createTopic call rejects with `"Kafka error"`. -/
def failCreateLog : LogClient where
  generateTopicId := "TOPIC_ID"
  createTopic := fun _ _ => Except.error "Kafka error"
  paramsStream := fun _ _ => ⟨[], none⟩

/-- A log client whose params stream fails at once with `"Kafka error"`. -/
def failStreamLog : LogClient where
  generateTopicId := "TOPIC_ID"
  createTopic := fun _ _ => Except.ok ()
  paramsStream := fun _ _ => ⟨[], some "Kafka error"⟩

/-- An HTTP registrar whose posts all resolve (empty response body). -/
def okHttp : HttpClient where
  post := fun _ _ => Except.ok ""

/-- An HTTP registrar whose posts all reject with `"Dav node error"`. -/
def failHttp : HttpClient where
  post := fun _ _ => Except.error "Dav node error"

/-- C10: for every partial props object, the `Config` constructor keeps
exactly the values named in props and falls back to the documented default
for every absent field (props always overrides defaults); the documented
defaults include `apiSeedUrls = [""]`, `needTtl = 10000` and
`kafkaPollingInterval = 1000`. -/
theorem config_props_override_defaults (props : ConfigProps) :
    (Config.make props).ethNodeUrl = props.ethNodeUrl.getD defaultValues.ethNodeUrl ∧
    (Config.make props).apiSeedUrls = props.apiSeedUrls.getD defaultValues.apiSeedUrls ∧
    (Config.make props).kafkaSeedUrls = props.kafkaSeedUrls.getD defaultValues.kafkaSeedUrls ∧
    (Config.make props).identityTtl = props.identityTtl.getD defaultValues.identityTtl ∧
    (Config.make props).needTypeTtl = props.needTypeTtl.getD defaultValues.needTypeTtl ∧
    (Config.make props).needTtl = props.needTtl.getD defaultValues.needTtl ∧
    (Config.make props).missionConsumerTtl
      = props.missionConsumerTtl.getD defaultValues.missionConsumerTtl ∧
    (Config.make props).missionProviderTtl
      = props.missionProviderTtl.getD defaultValues.missionProviderTtl ∧
    (Config.make props).kafkaPollingInterval
      = props.kafkaPollingInterval.getD defaultValues.kafkaPollingInterval ∧
    (Config.make props).blockchainType
      = props.blockchainType.getD defaultValues.blockchainType ∧
    defaultValues.apiSeedUrls = [""] ∧
    defaultValues.needTtl = 10000 ∧
    defaultValues.kafkaPollingInterval = 1000 := by
  obtain ⟨f1, f2, f3, f4, f5, f6, f7, f8, f9, f10⟩ := props
  refine ⟨?_, ?_, ?_, ?_, ?_, ?_, ?_, ?_, ?_, ?_, rfl, rfl, rfl⟩
  · cases f1 <;> rfl
  · cases f2 <;> rfl
  · cases f3 <;> rfl
  · cases f4 <;> rfl
  · cases f5 <;> rfl
  · cases f6 <;> rfl
  · cases f7 <;> rfl
  · cases f8 <;> rfl
  · cases f9 <;> rfl
  · cases f10 <;> rfl

/-- C8: the local constructors `need`, `bid` and `mission` are pure and
synchronous — each returns the domain record obtained by directly
constructing the corresponding record type from the given id (or
`params.id` for `need`), the params and the config, and performs no
log-client or HTTP call (its trace is empty). -/
theorem local_construction_purity (cfg : IConfig) (id : String)
    (params : ParamsObject) :
    Identity.need cfg params = ([], mkRecord RecordType.need params.id params cfg) ∧
    Identity.bid cfg id params = ([], mkRecord RecordType.bid id params cfg) ∧
    Identity.mission cfg id params = ([], mkRecord RecordType.mission id params cfg) :=
  ⟨rfl, rfl, rfl⟩

/-- C9: `needsForType` invoked with an explicit topic id performs no HTTP
registration post at all — and no id generation or topic creation — its
whole trace being the single subscription open on the supplied topic, and
the stream is hydrated directly from that topic's params stream. -/
theorem needs_for_type_explicit_no_post (log : LogClient) (http : HttpClient)
    (cfg : IConfig) (filterParams : ParamsObject) (t : String) :
    (Identity.needsForType log http cfg filterParams (some t)).1.countP Event.isPost = 0 ∧
    (Identity.needsForType log http cfg filterParams (some t)).1.countP Event.isProvision = 0 ∧
    (Identity.needsForType log http cfg filterParams (some t)).1 = [Event.openStream t cfg] ∧
    (Identity.needsForType log http cfg filterParams (some t)).2
      = Except.ok (hydrateStream RecordType.need t cfg (log.paramsStream t cfg)) := by
  refine ⟨?_, ?_, rfl, rfl⟩ <;>
    simp [Identity.needsForType, List.countP_cons, Event.isPost, Event.isProvision,
      Event.isGen, Event.isCreate]

/-- C2: every streaming operation invoked with an explicit topic id `t`
performs no id-generation and no topic-creation call, and every domain
record it produces carries exactly `t` as its topic id. -/
theorem explicit_topic_bypass (log : LogClient) (http : HttpClient)
    (cfg : IConfig) (filterParams : ParamsObject) (t : String) :
    (Identity.needsForType log http cfg filterParams (some t)).1.countP Event.isProvision = 0 ∧
    ((recordsOf (Identity.needsForType log http cfg filterParams (some t)).2).all
      (fun r => r.topicId == t)) = true ∧
    (Identity.missions log cfg (some t)).1.countP Event.isProvision = 0 ∧
    ((recordsOf (Identity.missions log cfg (some t)).2).all
      (fun r => r.topicId == t)) = true ∧
    (Identity.messages log cfg (some t)).1.countP Event.isProvision = 0 ∧
    ((recordsOf (Identity.messages log cfg (some t)).2).all
      (fun r => r.topicId == t)) = true := by
  refine ⟨?_, ?_, ?_, ?_, ?_, ?_⟩ <;>
    simp [Identity.needsForType, Identity.missions, Identity.messages, resolveTopic,
      recordsOf, hydrateStream, mkRecord, List.countP_cons, List.all_map,
      Event.isProvision, Event.isGen, Event.isCreate, Function.comp]

/-- C1: for every operation invoked with no explicit topic id, if the
createTopic call fails with cause `e`, the operation rejects with the
message `"Topic registration failed: <e>"` and its trace contains no HTTP
registration post and no subscription open. -/
theorem topic_creation_failure_short_circuits (log : LogClient)
    (http : HttpClient) (cfg : IConfig) (params filterParams : ParamsObject)
    (e : Err) (hfail : log.createTopic log.generateTopicId cfg = Except.error e) :
    (Identity.publishNeed log http cfg params).2
      = Except.error ("Topic registration failed: " ++ e) ∧
    (Identity.publishNeed log http cfg params).1.countP Event.isUse = 0 ∧
    (Identity.needsForType log http cfg filterParams none).2
      = Except.error ("Topic registration failed: " ++ e) ∧
    (Identity.needsForType log http cfg filterParams none).1.countP Event.isUse = 0 ∧
    (Identity.missions log cfg none).2
      = Except.error ("Topic registration failed: " ++ e) ∧
    (Identity.missions log cfg none).1.countP Event.isUse = 0 ∧
    (Identity.messages log cfg none).2
      = Except.error ("Topic registration failed: " ++ e) ∧
    (Identity.messages log cfg none).1.countP Event.isUse = 0 := by
  refine ⟨?_, ?_, ?_, ?_, ?_, ?_, ?_, ?_⟩ <;>
    simp [Identity.publishNeed, Identity.needsForType, Identity.missions,
      Identity.messages, resolveTopic, hfail, List.countP_cons,
      Event.isUse, Event.isPost, Event.isOpen]

/-- C1 witness: at the concrete failing log client of the tests,
`publishNeed` rejects with the rewritten message. -/
theorem topic_creation_failure_short_circuits_witness :
    (Identity.publishNeed failCreateLog okHttp defaultValues pA).2
      = Except.error ("Topic registration failed: " ++ "Kafka error") :=
  (topic_creation_failure_short_circuits failCreateLog okHttp defaultValues
    pA pB "Kafka error" rfl).1

/-- C3: for every operation invoked with no explicit topic id (and whose
collaborator calls succeed), the trace holds exactly one id-generation
event and exactly one topic-creation event, every provisioning event
precedes every registration post and subscription open, and the
topic-creation call receives the generated id and the config. -/
theorem generated_topic_provisioning (log : LogClient) (http : HttpClient)
    (cfg : IConfig) (params filterParams : ParamsObject) (r1 r2 : String)
    (hok : log.createTopic log.generateTopicId cfg = Except.ok ())
    (hpost1 : http.post (publishNeedUrl cfg log.generateTopicId) params = Except.ok r1)
    (hpost2 : http.post (needsForTypeUrl cfg log.generateTopicId) filterParams
      = Except.ok r2) :
    (Identity.publishNeed log http cfg params).1.countP Event.isGen = 1 ∧
    (Identity.publishNeed log http cfg params).1.countP Event.isCreate = 1 ∧
    provisionBeforeUse (Identity.publishNeed log http cfg params).1 = true ∧
    Event.createTopic log.generateTopicId cfg ∈ (Identity.publishNeed log http cfg params).1 ∧
    (Identity.needsForType log http cfg filterParams none).1.countP Event.isGen = 1 ∧
    (Identity.needsForType log http cfg filterParams none).1.countP Event.isCreate = 1 ∧
    provisionBeforeUse (Identity.needsForType log http cfg filterParams none).1 = true ∧
    Event.createTopic log.generateTopicId cfg
      ∈ (Identity.needsForType log http cfg filterParams none).1 ∧
    (Identity.missions log cfg none).1.countP Event.isGen = 1 ∧
    (Identity.missions log cfg none).1.countP Event.isCreate = 1 ∧
    provisionBeforeUse (Identity.missions log cfg none).1 = true ∧
    Event.createTopic log.generateTopicId cfg ∈ (Identity.missions log cfg none).1 ∧
    (Identity.messages log cfg none).1.countP Event.isGen = 1 ∧
    (Identity.messages log cfg none).1.countP Event.isCreate = 1 ∧
    provisionBeforeUse (Identity.messages log cfg none).1 = true ∧
    Event.createTopic log.generateTopicId cfg ∈ (Identity.messages log cfg none).1 := by
  refine ⟨?_, ?_, ?_, ?_, ?_, ?_, ?_, ?_, ?_, ?_, ?_, ?_, ?_, ?_, ?_, ?_⟩ <;>
    simp [Identity.publishNeed, Identity.needsForType, Identity.missions,
      Identity.messages, resolveTopic, hok, hpost1, hpost2, List.countP_cons,
      provisionBeforeUse, List.dropWhile, Event.isGen, Event.isCreate,
      Event.isPost, Event.isOpen, Event.isUse, Event.isProvision]

/-- C3 witness: at the concrete happy-path collaborators, the `missions`
trace holds exactly one topic-creation event. -/
theorem generated_topic_provisioning_witness :
    (Identity.missions okLog defaultValues none).1.countP Event.isCreate = 1 :=
  (generated_topic_provisioning okLog okHttp defaultValues pA pB "" ""
    rfl rfl rfl).2.2.2.2.2.2.2.2.2.1

/-- C4: when the params stream of topic `t` yields `p1, p2, p3` in that
order, each streaming operation on `t` returns a stream emitting exactly
the three hydrated records `mkRecord rt t pi cfg`, in the same order, then
completing. -/
theorem order_preservation (log : LogClient) (http : HttpClient)
    (cfg : IConfig) (filterParams p1 p2 p3 : ParamsObject) (t : String)
    (hstream : log.paramsStream t cfg = ⟨[p1, p2, p3], none⟩) :
    (Identity.needsForType log http cfg filterParams (some t)).2
      = Except.ok ⟨[mkRecord RecordType.need t p1 cfg,
          mkRecord RecordType.need t p2 cfg,
          mkRecord RecordType.need t p3 cfg], none⟩ ∧
    (Identity.missions log cfg (some t)).2
      = Except.ok ⟨[mkRecord RecordType.mission t p1 cfg,
          mkRecord RecordType.mission t p2 cfg,
          mkRecord RecordType.mission t p3 cfg], none⟩ ∧
    (Identity.messages log cfg (some t)).2
      = Except.ok ⟨[mkRecord RecordType.message t p1 cfg,
          mkRecord RecordType.message t p2 cfg,
          mkRecord RecordType.message t p3 cfg], none⟩ := by
  refine ⟨?_, ?_, ?_⟩ <;>
    simp [Identity.needsForType, Identity.missions, Identity.messages,
      resolveTopic, hydrateStream, hstream]

/-- C4 witness: at the concrete three-item log client, `missions` emits the
three hydrated Mission records in input order. -/
theorem order_preservation_witness :
    (Identity.missions okLog defaultValues (some "TOPIC_ID")).2
      = Except.ok ⟨[mkRecord RecordType.mission "TOPIC_ID" pA defaultValues,
          mkRecord RecordType.mission "TOPIC_ID" pB defaultValues,
          mkRecord RecordType.mission "TOPIC_ID" pC defaultValues], none⟩ :=
  (order_preservation okLog okHttp defaultValues pA pA pB pC "TOPIC_ID" rfl).2.1

/-- C5: when the underlying subscription source of topic `t` fails with
error `e`, each streaming operation on `t` returns a stream with zero item
events and the single terminal error event carrying `e` itself, unwrapped
(and, the error being terminal, nothing after it). -/
theorem error_transparency (log : LogClient) (http : HttpClient)
    (cfg : IConfig) (filterParams : ParamsObject) (t : String) (e : Err)
    (hstream : log.paramsStream t cfg = ⟨[], some e⟩) :
    (Identity.needsForType log http cfg filterParams (some t)).2
      = Except.ok ⟨[], some e⟩ ∧
    (Identity.missions log cfg (some t)).2 = Except.ok ⟨[], some e⟩ ∧
    (Identity.messages log cfg (some t)).2 = Except.ok ⟨[], some e⟩ := by
  refine ⟨?_, ?_, ?_⟩ <;>
    simp [Identity.needsForType, Identity.missions, Identity.messages,
      resolveTopic, hydrateStream, hstream]

/-- C5 witness: at the concrete failing-stream log client, `messages`
forwards the Kafka error verbatim with no items. -/
theorem error_transparency_witness :
    (Identity.messages failStreamLog defaultValues (some "TOPIC_ID")).2
      = Except.ok ⟨[], some "Kafka error"⟩ :=
  (error_transparency failStreamLog okHttp defaultValues pA "TOPIC_ID"
    "Kafka error" rfl).2.2

/-- C6: when the HTTP registrar post fails with transport error `e`, the
one-shot `publishNeed` rejects with exactly `e`, unchanged and unwrapped,
whereas the streaming `needsForType` rejects with the rewritten message
`"Needs registration failed: <e>"`. -/
theorem registrar_failure_asymmetry (log : LogClient) (http : HttpClient)
    (cfg : IConfig) (params filterParams : ParamsObject) (e : Err)
    (hok : log.createTopic log.generateTopicId cfg = Except.ok ())
    (hpost1 : http.post (publishNeedUrl cfg log.generateTopicId) params = Except.error e)
    (hpost2 : http.post (needsForTypeUrl cfg log.generateTopicId) filterParams
      = Except.error e) :
    (Identity.publishNeed log http cfg params).2 = Except.error e ∧
    (Identity.needsForType log http cfg filterParams none).2
      = Except.error ("Needs registration failed: " ++ e) := by
  refine ⟨?_, ?_⟩ <;>
    simp [Identity.publishNeed, Identity.needsForType, resolveTopic,
      hok, hpost1, hpost2]

/-- C6 witness: at the concrete failing registrar, `publishNeed` rejects
with the transport error itself. -/
theorem registrar_failure_asymmetry_witness :
    (Identity.publishNeed okLog failHttp defaultValues pA).2
      = Except.error "Dav node error" :=
  (registrar_failure_asymmetry okLog failHttp defaultValues pA pB
    "Dav node error" rfl rfl rfl).1

/-- C7: publishing a need whose resolved topic id is `"TOPIC_ID"` with
params `params` posts exactly once, to
`<config.apiSeedUrls[0]>/publishNeed/:TOPIC_ID` with body `params`, and
resolves to the record built as `Need("TOPIC_ID", params, cfg)`; the
registrar's response body `resp` is arbitrary and absent from the result. -/
theorem publish_need_contract (log : LogClient) (http : HttpClient)
    (cfg : IConfig) (params : ParamsObject) (resp : String)
    (hid : log.generateTopicId = "TOPIC_ID")
    (hok : log.createTopic "TOPIC_ID" cfg = Except.ok ())
    (hpost : http.post (publishNeedUrl cfg "TOPIC_ID") params = Except.ok resp) :
    (Identity.publishNeed log http cfg params).1.countP Event.isPost = 1 ∧
    Event.post (publishNeedUrl cfg "TOPIC_ID") params
      ∈ (Identity.publishNeed log http cfg params).1 ∧
    (Identity.publishNeed log http cfg params).2
      = Except.ok (mkRecord RecordType.need "TOPIC_ID" params cfg) := by
  refine ⟨?_, ?_, ?_⟩ <;>
    simp [Identity.publishNeed, resolveTopic, hid, hok, hpost,
      List.countP_cons, Event.isPost]

/-- C7 witness: at the concrete happy-path collaborators, `publishNeed`
resolves to the Need record built from the topic, params and config. -/
theorem publish_need_contract_witness :
    (Identity.publishNeed okLog okHttp defaultValues pA).2
      = Except.ok (mkRecord RecordType.need "TOPIC_ID" pA defaultValues) :=
  (publish_need_contract okLog okHttp defaultValues pA "" rfl rfl rfl).2.2
